import Mathlib

/-
Shallow embedding of the conversation-orchestration core of the backend:
the session state bag, the risk-flagging tool, the memory queue manager,
the root agent's routing, the deterministic fallback responder, the
custom runner's turn loop, and the persistence-layer delete cascade.
Each definition is translated from the corresponding Python function;
Option-typed fields model dict keys that some creation sites omit.
-/

namespace ChatBackend

set_option maxRecDepth 8000

/-- A dynamic (duck-typed) primitive value as stored under the "at_risk" key
of the session state dict: the code stores the strings "True"/"False", but the
bag is untyped, so an actual boolean (or a missing key, modelled as the
surrounding Option being none) is representable. -/
inductive PyVal where
  | str (s : String)
  | bool (b : Bool)
deriving DecidableEq, Repr

/-- One entry of the rolling memory queue / assessment history:
the Python dict \x7b"role": ..., "text": ...\x7d. -/
structure MemEntry where
  role : String
  text : String
deriving DecidableEq, Repr

/-- The risk_profile dict. Option marks keys that some creation sites omit:
the profile written by the deterministic fallback has no "status",
no "active_category" and no "assessment_history" key. -/
structure RiskProfile where
  status : Option String
  active_category : Option String
  triggering_statement : String
  risk_categories : List String
  assessment_history : Option (List MemEntry)
  verdict : String
deriving DecidableEq, Repr

/-- The user_profile dict of the initial states. -/
structure UserProfile where
  name : String
  grade : String
  at_risk : Bool
deriving DecidableEq, Repr

/-- The session state bag. Every field is Option-typed because the Python
dict may lack the key (none = key absent or null). Config-only keys that no
modelled operation reads (context_collection, active_category_risk_factors,
found_risk_factors) are omitted. -/
structure SessionState where
  user_profile : Option UserProfile
  at_risk : Option PyVal
  risk_profile : Option RiskProfile
  agent_response : Option String
  persona_agent_response : Option String
  recent_memory_queue : Option (List MemEntry)
  session_status : Option String
deriving DecidableEq, Repr

/-- The risk_profile value of both initial-state builders:
status NO_RISK, verdict CLEARED, empty histories. -/
def initialRiskProfile : RiskProfile :=
  { status := some "NO_RISK"
    active_category := none
    triggering_statement := ""
    risk_categories := []
    assessment_history := some []
    verdict := "CLEARED" }

/-- CustomAgentRunner._create_initial_state: the initial session state used by
the custom runner; it has no persona_agent_response and no recent_memory_queue
key, and agent_response is null. -/
def runnerInitialState : SessionState :=
  { user_profile := some { name := "User", grade := "Unknown", at_risk := false }
    at_risk := some (.str "False")
    risk_profile := some initialRiskProfile
    agent_response := none
    persona_agent_response := none
    recent_memory_queue := none
    session_status := some "OPEN" }

/-- AgentService._create_initial_state: the initial session state used by the
service layer; user name is the profile email when truthy, else "User". -/
def serviceInitialState (email : Option String) : SessionState :=
  { user_profile := some
      { name := match email with
          | none => "User"
          | some e => if e = "" then "User" else e
        grade := "Unknown"
        at_risk := false }
    at_risk := some (.str "False")
    risk_profile := some initialRiskProfile
    agent_response := some ""
    persona_agent_response := some ""
    recent_memory_queue := some []
    session_status := some "OPEN" }

/-- The fresh dict built inside create_risk_profile when the state's
risk_profile value is falsy; note it carries no "status" key. -/
def freshRiskProfile : RiskProfile :=
  { status := none
    active_category := none
    triggering_statement := ""
    risk_categories := []
    assessment_history := some []
    verdict := "CLEARED" }

/-- chat_agent/tools/memory.py create_risk_profile: records the triggering
statement, appends the category to risk_categories, sets verdict to
UNCONFIRMED and the session-level at_risk flag to "True". The "status" key of
the profile is not written. -/
def create_risk_profile (stmt category : String) (memory : SessionState) :
    SessionState :=
  let rp := memory.risk_profile.getD freshRiskProfile
  let rp' : RiskProfile :=
    { rp with
        triggering_statement := stmt
        risk_categories := rp.risk_categories ++ [category]
        verdict := "UNCONFIRMED" }
  { memory with at_risk := some (.str "True"), risk_profile := some rp' }

/-- Memory queue append-and-trim, lines 79-102 of memory.py: extend the queue
by the user entry and the model entry, then keep only the last 6 entries when
the length exceeds 6 (Python slice queue[-6:]). -/
def appendTrim (queue : List MemEntry) (userEntry modelEntry : MemEntry) :
    List MemEntry :=
  let q := queue ++ [userEntry, modelEntry]
  if 6 < q.length then q.drop (q.length - 6) else q

/-- memory.py update_recent_memory_queue: initializes the queue to [] when the
key is absent, then appends the (user, model) pair and trims; reading
persona_agent_response raises KeyError (none) when that key is absent. -/
def update_recent_memory_queue (userRole userText : String)
    (memory : SessionState) : Option SessionState :=
  match memory.persona_agent_response with
  | none => none
  | some resp =>
      some { memory with
        recent_memory_queue :=
          some (appendTrim (memory.recent_memory_queue.getD [])
            { role := userRole, text := userText }
            { role := "model", text := resp }) }

/-- memory.py _update_assessment_history: appends the user turn and the
agent_response to risk_profile.assessment_history; raises KeyError (none) when
risk_profile, agent_response, or the assessment_history key is absent. -/
def updateAssessmentHistory (userRole userText : String) (st : SessionState) :
    Option SessionState :=
  match st.risk_profile, st.agent_response with
  | some rp, some resp =>
      match rp.assessment_history with
      | some hist =>
          some { st with
            risk_profile := some { rp with
              assessment_history := some (hist ++
                [{ role := userRole, text := userText },
                 { role := "model", text := resp }]) } }
      | none => none
  | _, _ => none

/-- Whether the needle character list occurs at the head of the haystack. -/
def leadsWith : List Char → List Char → Bool
  | [], _ => true
  | _ :: _, [] => false
  | a :: as, b :: bs => a == b && leadsWith as bs

/-- Whether the needle character list occurs contiguously anywhere in the
haystack (Python substring containment). -/
def hasSub (needle : List Char) : List Char → Bool
  | [] => leadsWith needle []
  | c :: rest => leadsWith needle (c :: rest) || hasSub needle rest

/-- Python `needle in hay` on strings. -/
def strIn (needle hay : String) : Bool :=
  hasSub needle.data hay.data

/-- Risk keyword set of the deterministic fallback responder. -/
def riskKeywords : List String :=
  ["hurt myself", "harm myself", "suicide", "kill myself", "want to die"]

/-- Greeting keyword group of the fallback responder. -/
def greetingKeywords : List String := ["hello", "hi", "hey"]

/-- Sadness keyword group of the fallback responder. -/
def sadKeywords : List String := ["sad", "down", "upset", "depressed"]

/-- Anxiety keyword group of the fallback responder. -/
def anxiousKeywords : List String := ["anxious", "worried", "stress"]

/-- Python str.lower() on the message (the keyword tables are ASCII). -/
def pyLower (s : String) : List Char :=
  s.data.map Char.toLower

/-- Whether the lowercased message contains some keyword of the group;
keywords in the source are already lowercase. -/
def groupMatch (group : List String) (userMessage : String) : Bool :=
  group.any fun kw => hasSub kw.data (pyLower userMessage)

/-- Fixed crisis-resource reply of the fallback responder. -/
def crisisReply : String :=
  "Thank you for sharing that with me. That sounds like a lot to hold onto, and it\x27s really important. I want you to know that you\x27re not alone. Please reach out to a trusted adult or call 988 if you need immediate help."

/-- Canned greeting reply of the fallback responder. -/
def greetingReply : String :=
  "Hello! I\x27m here to support you. How are you feeling today?"

/-- Canned sadness reply of the fallback responder. -/
def sadReply : String :=
  "I hear that you\x27re feeling down. That must be difficult. Can you tell me more about what\x27s been going on?"

/-- Canned anxiety reply of the fallback responder. -/
def anxiousReply : String :=
  "It sounds like you\x27re feeling anxious or stressed. That can be really overwhelming. What\x27s been on your mind lately?"

/-- Default reply of the fallback responder for unmatched input. -/
def defaultReply : String :=
  "Thank you for sharing that with me. I\x27m here to listen and support you. Can you tell me more about how you\x27re feeling?"

/-- Generic apology returned by run_conversation when the turn fails before a
reply was computed. -/
def apologyReply : String :=
  "I apologize, but I\x27m having trouble processing your message right now. Please try again."

/-- State mutation of the fallback responder's risk branch
(custom_runner.py lines 218-223): at_risk becomes "True" and risk_profile is
replaced by a dict holding only triggering_statement, risk_categories
(["Suicidality"]) and verdict UNCONFIRMED. -/
def fallbackFlagState (userMessage : String) (st : SessionState) :
    SessionState :=
  { st with
      at_risk := some (.str "True")
      risk_profile := some
        { status := none
          active_category := none
          triggering_statement := userMessage
          risk_categories := ["Suicidality"]
          assessment_history := none
          verdict := "UNCONFIRMED" } }

/-- CustomAgentRunner._process_with_fallback: deterministic keyword responder;
risk keywords are checked first, then greeting, sadness, anxiety groups, else
the default reply; only the risk branch mutates the state. -/
def fallbackProcess (st : SessionState) (userMessage : String) :
    String × SessionState :=
  if groupMatch riskKeywords userMessage then
    (crisisReply, fallbackFlagState userMessage st)
  else if groupMatch greetingKeywords userMessage then
    (greetingReply, st)
  else if groupMatch sadKeywords userMessage then
    (sadReply, st)
  else if groupMatch anxiousKeywords userMessage then
    (anxiousReply, st)
  else
    (defaultReply, st)

/-- The dict lookup string_to_bool[state.get("at_risk")] of
RootAgent._run_async_impl: only the exact strings "True"/"False" map to a
boolean; a missing key, any other string, or an actual boolean raises
KeyError (none). -/
def stringToBoolMap (v : Option PyVal) : Option Bool :=
  match v with
  | some (.str s) =>
      if s = "True" then some true
      else if s = "False" then some false
      else none
  | _ => none

/-- Which sub-agent produces the turn reply. -/
inductive StrategyId where
  | personaAgent
  | contextCollectionAgent
deriving DecidableEq, Repr

/-- Effect on the session state of a crisis-detection run, modelled as the
sequence of create_risk_profile tool calls the opaque capability makes. -/
def runFlags (flags : List (String × String)) (st : SessionState) :
    SessionState :=
  flags.foldl (fun s f => create_risk_profile f.1 f.2 s) st

/-- RootAgent._run_async_impl routing skeleton: read the at_risk flag (KeyError
when invalid), run crisis detection when not at risk, re-read the flag, and
pick the reply-producing sub-agent: context collection when at risk, else
persona. -/
def routeDecision (flags : List (String × String)) (st : SessionState) :
    Except String (StrategyId × SessionState) :=
  match stringToBoolMap st.at_risk with
  | none => .error "KeyError"
  | some isAtRisk =>
      let st1 := if isAtRisk then st else runFlags flags st
      match stringToBoolMap st1.at_risk with
      | none => .error "KeyError"
      | some isAtRisk2 =>
          .ok (if isAtRisk2 then .contextCollectionAgent else .personaAgent, st1)

/-- Context-collection sub-agent turn: its output_key writes agent_response,
then its after_agent_callback appends the turn to assessment_history. -/
def contextStep (userMsg reply : String) (st : SessionState) :
    Option SessionState :=
  updateAssessmentHistory "user" userMsg { st with agent_response := some reply }

/-- One full RootAgent turn: route, then produce the reply with the selected
sub-agent (persona leaves the state untouched; context collection runs
contextStep, whose missing-key cases surface as KeyError). -/
def rootAgentTurn (userMsg : String) (flags : List (String × String))
    (personaText contextText : String) (st : SessionState) :
    Except String (String × SessionState) :=
  match routeDecision flags st with
  | .error e => .error e
  | .ok (.personaAgent, st1) => .ok (personaText, st1)
  | .ok (.contextCollectionAgent, st1) =>
      match contextStep userMsg contextText st1 with
      | none => .error "KeyError"
      | some st2 => .ok (contextText, st2)

/-- Outcome of the primary (ADK agent) processing attempt: either a final
reply with the state the attempt produced, or a raised error together with
the shared mutable state at the time of failure. -/
inductive PrimaryOutcome where
  | reply (text : String) (st : SessionState)
  | failure (err : String) (stAtFailure : SessionState)
deriving DecidableEq, Repr

/-- CustomAgentRunner._process_with_agent: try the ADK path when available;
any raised error is caught and the deterministic fallback produces the reply
for that turn, so the result is always ok. -/
def processWithAgent (adkAvailable : Bool) (primary : PrimaryOutcome)
    (st : SessionState) (userMessage : String) :
    Except String (String × SessionState) :=
  if adkAvailable then
    match primary with
    | .reply t st' => .ok (t, st')
    | .failure _ stf => .ok (fallbackProcess stf userMessage)
  else
    .ok (fallbackProcess st userMessage)

/-- SupabaseCallbackManager.after_agent_response: store_state and
store_conversation_turn each swallow their own exceptions and the manager
wraps both in another broad catch, so the persistence outcomes never
propagate. -/
def after_agent_response (stateStore msgStore : Except String Unit) : Unit :=
  match stateStore, msgStore with
  | _, _ => ()

/-- CustomSupabaseSessionService.update_session_state: true when the update
returned data, false when it returned no data or raised (the exception is
caught and logged). -/
def update_session_state (dbResult : Except String (Option Unit)) : Bool :=
  match dbResult with
  | .ok (some _) => true
  | .ok none => false
  | .error _ => false

/-- CustomAgentRunner.run_conversation after the session state has been
loaded/merged (session = some st): process the message, run the after
callbacks and the state update (both total), and return the computed reply;
a missing session or an escaped processing error hits the outer catch and
yields the apology reply. -/
def run_conversation (session : Option SessionState) (adkAvailable : Bool)
    (primary : PrimaryOutcome) (stateStore msgStore : Except String Unit)
    (updateResult : Except String (Option Unit)) (userMessage : String) :
    String :=
  match session with
  | none => apologyReply
  | some st =>
      match processWithAgent adkAvailable primary st userMessage with
      | .error _ => apologyReply
      | .ok (reply, _) =>
          let _cb := after_agent_response stateStore msgStore
          let _upd := update_session_state updateResult
          reply

/-- Row of the chat_sessions table. -/
structure SessionRec where
  id : String
  userId : String
  appName : String
  state : SessionState
deriving DecidableEq, Repr

/-- Row of the chat_messages table. -/
structure MsgRec where
  sessionId : String
  userId : String
  role : String
  content : String
deriving DecidableEq, Repr

/-- Row of the session_states table. -/
structure StateRec where
  sessionId : String
  userId : String
  state : SessionState
deriving DecidableEq, Repr

/-- Row of the risk_alerts table. -/
structure AlertRec where
  sessionId : String
  userId : String
  triggering_statement : String
  risk_categories : List String
  verdict : String
deriving DecidableEq, Repr

/-- Row of the transformed_messages table. -/
structure TransRec where
  sessionId : String
  userId : String
deriving DecidableEq, Repr

/-- The persistence store as seen by the session service. -/
structure Db where
  chat_sessions : List SessionRec
  chat_messages : List MsgRec
  session_states : List StateRec
  risk_alerts : List AlertRec
  transformed_messages : List TransRec
deriving DecidableEq, Repr

/-- CustomSupabaseSessionService.get_session: rows of chat_sessions matching
(id, user_id, app_name); first row or none. -/
def get_session (appName userId sessionId : String) (db : Db) :
    Option SessionRec :=
  (db.chat_sessions.filter fun r =>
    r.id == sessionId && r.userId == userId && r.appName == appName).head?

/-- AgentService.session_exists on the custom-runner path: get_session is not
none. -/
def session_exists (appName userId sessionId : String) (db : Db) : Bool :=
  (get_session appName userId sessionId db).isSome

/-- CustomSupabaseSessionService.delete_session: removes the matching
chat_messages, session_states and chat_sessions rows; risk_alerts and
transformed_messages rows are not touched. -/
def delete_session (appName userId sessionId : String) (db : Db) : Db :=
  let db1 := { db with
    chat_messages := db.chat_messages.filter fun m =>
      !(m.sessionId == sessionId && m.userId == userId) }
  let db2 := { db1 with
    session_states := db1.session_states.filter fun s =>
      !(s.sessionId == sessionId && s.userId == userId) }
  { db2 with
    chat_sessions := db2.chat_sessions.filter fun s =>
      !(s.id == sessionId && s.userId == userId && s.appName == appName) }

/-- AgentService._delete_manual_session: the fallback deletion path, which
also removes transformed_messages and risk_alerts rows (its chat_sessions
filter has no app_name condition). -/
def delete_manual_session (userId sessionId : String) (db : Db) : Db :=
  let db1 := { db with
    chat_messages := db.chat_messages.filter fun m =>
      !(m.sessionId == sessionId && m.userId == userId) }
  let db2 := { db1 with
    session_states := db1.session_states.filter fun s =>
      !(s.sessionId == sessionId && s.userId == userId) }
  let db3 := { db2 with
    transformed_messages := db2.transformed_messages.filter fun t =>
      !(t.sessionId == sessionId && t.userId == userId) }
  let db4 := { db3 with
    risk_alerts := db3.risk_alerts.filter fun a =>
      !(a.sessionId == sessionId && a.userId == userId) }
  { db4 with
    chat_sessions := db4.chat_sessions.filter fun s =>
      !(s.id == sessionId && s.userId == userId) }

/-- One atomic state-mutating operation of the turn loop. -/
inductive TurnOp where
  | flag (stmt category : String)
  | fallback (userMessage : String)
  | personaReply (reply : String)
  | contextReply (userMsg reply : String)
  | queueAppend (userRole userText : String)
deriving DecidableEq, Repr

/-- Effect of a turn-loop operation on the session state; none when the
operation raises (missing dict key). -/
def applyOp : TurnOp → SessionState → Option SessionState
  | .flag s c, st => some (create_risk_profile s c st)
  | .fallback m, st => some (fallbackProcess st m).2
  | .personaReply _, st => some st
  | .contextReply u r, st => contextStep u r st
  | .queueAppend role text, st => update_recent_memory_queue role text st

/-- Session states reachable from either initial-state builder by successful
turn-loop operations. -/
inductive Reachable : SessionState → Prop where
  | runner : Reachable runnerInitialState
  | service (email : Option String) : Reachable (serviceInitialState email)
  | step {st st' : SessionState} (op : TurnOp) (h : applyOp op st = some st')
      (hr : Reachable st) : Reachable st'

/-- States reachable from a given state by successful turn-loop operations. -/
inductive ReachableFrom : SessionState → SessionState → Prop where
  | refl (st : SessionState) : ReachableFrom st st
  | step {st st' st'' : SessionState} (op : TurnOp)
      (h : applyOp op st' = some st'') (hr : ReachableFrom st st') :
      ReachableFrom st st''

/-- The amended session-state invariant: the risk profile is always present,
at_risk is the string "True" or "False" and is "True" exactly when verdict is
neither NO_RISK nor CLEARED, and the status key is never rewritten: it stays
NO_RISK from creation, or is absent after a fallback flag replaced the
profile. -/
def atRiskConsistent (st : SessionState) : Prop :=
  ∃ rp, st.risk_profile = some rp ∧
    (st.at_risk = some (.str "True") ∨ st.at_risk = some (.str "False")) ∧
    (st.at_risk = some (.str "True") ↔
      (rp.verdict ≠ "NO_RISK" ∧ rp.verdict ≠ "CLEARED")) ∧
    (rp.status = some "NO_RISK" ∨ rp.status = none)

/-- C1 (amended): flagging a qualifying statement via create_risk_profile on a
session whose risk profile is present sets risk_profile.verdict (not status)
to UNCONFIRMED, records the triggering statement, appends exactly one entry to
risk_categories preserving every previous entry in order, and sets the
session-level at_risk flag to "True"; the status field is left unchanged. -/
theorem create_risk_profile_transition (stmt category : String)
    (st : SessionState) (rp : RiskProfile) (h : st.risk_profile = some rp) :
    (create_risk_profile stmt category st).risk_profile =
      some { rp with
        triggering_statement := stmt
        risk_categories := rp.risk_categories ++ [category]
        verdict := "UNCONFIRMED" } ∧
    (create_risk_profile stmt category st).at_risk = some (.str "True") ∧
    ((create_risk_profile stmt category st).risk_profile.map RiskProfile.status)
      = some rp.status := by
  refine ⟨?_, rfl, ?_⟩ <;> simp [create_risk_profile, h]

/-- Witness for C1 at a concrete input: flagging on the fresh runner state. -/
theorem create_risk_profile_transition_witness :
    (create_risk_profile "I want to kill myself" "Suicidality"
        runnerInitialState).at_risk = some (.str "True") ∧
    ((create_risk_profile "I want to kill myself" "Suicidality"
        runnerInitialState).risk_profile.map RiskProfile.status)
      = some initialRiskProfile.status :=
  ⟨(create_risk_profile_transition "I want to kill myself" "Suicidality"
      runnerInitialState initialRiskProfile rfl).2.1,
   (create_risk_profile_transition "I want to kill myself" "Suicidality"
      runnerInitialState initialRiskProfile rfl).2.2⟩

/-- C1 counterexample: on the fresh NO_RISK state, flagging a qualifying
statement leaves risk_profile.status at "NO_RISK"; it does not become
"UNCONFIRMED" as the claim states (only verdict does). -/
theorem create_risk_profile_status_stays_no_risk :
    ((create_risk_profile "I want to kill myself" "Suicidality"
        runnerInitialState).risk_profile.map RiskProfile.status)
      = some (some "NO_RISK") ∧
    some (some "NO_RISK") ≠ some (some ("UNCONFIRMED" : String)) :=
  ⟨rfl, by decide⟩

/-- Concatenated full history of a sequence of (user, model) turn pairs. -/
def turnHistory (turns : List (MemEntry × MemEntry)) : List MemEntry :=
  turns.foldr (fun t acc => t.1 :: t.2 :: acc) []

/-- The memory queue after running the append-and-trim update once per
completed turn, starting from the empty queue. -/
def runQueue (turns : List (MemEntry × MemEntry)) : List MemEntry :=
  turns.foldl (fun q t => appendTrim q t.1 t.2) []

theorem appendTrim_length (q : List MemEntry) (u m : MemEntry)
    (h : q.length ≤ 6) :
    (appendTrim q u m).length = min (q.length + 2) 6 := by
  simp only [appendTrim]
  split
  · rename_i h6
    simp only [List.length_drop, List.length_append, List.length_cons,
      List.length_nil] at *
    omega
  · rename_i h6
    simp only [List.length_append, List.length_cons, List.length_nil] at *
    omega

theorem appendTrim_suffix (q : List MemEntry) (u m : MemEntry) :
    appendTrim q u m <:+ q ++ [u, m] := by
  simp only [appendTrim]
  split
  · exact List.drop_suffix _ _
  · exact List.suffix_refl _

theorem suffix_append_same {α : Type} {l₁ l₂ : List α} (h : l₁ <:+ l₂)
    (l₃ : List α) : l₁ ++ l₃ <:+ l₂ ++ l₃ := by
  obtain ⟨t, ht⟩ := h
  exact ⟨t, by rw [← ht, List.append_assoc]⟩

theorem runQueue_from_spec (turns : List (MemEntry × MemEntry)) :
    ∀ q : List MemEntry, q.length ≤ 6 → q.length % 2 = 0 →
      (turns.foldl (fun a t => appendTrim a t.1 t.2) q).length
          = min (q.length + 2 * turns.length) 6 ∧
      (turns.foldl (fun a t => appendTrim a t.1 t.2) q).length % 2 = 0 ∧
      (turns.foldl (fun a t => appendTrim a t.1 t.2) q)
        <:+ (q ++ turnHistory turns) := by
  induction turns with
  | nil =>
    intro q h1 h2
    refine ⟨by simp; omega, by simpa using h2, by simp [turnHistory]⟩
  | cons t ts ih =>
    intro q h1 h2
    have hlen := appendTrim_length q t.1 t.2 h1
    have h1' : (appendTrim q t.1 t.2).length ≤ 6 := by omega
    have h2' : (appendTrim q t.1 t.2).length % 2 = 0 := by omega
    obtain ⟨ihl, ihe, ihs⟩ := ih (appendTrim q t.1 t.2) h1' h2'
    refine ⟨?_, ?_, ?_⟩
    · simp only [List.foldl_cons]
      rw [ihl, hlen]
      simp only [List.length_cons]
      omega
    · simpa only [List.foldl_cons] using ihe
    · simp only [List.foldl_cons]
      refine List.IsSuffix.trans ihs ?_
      have hstep := suffix_append_same (appendTrim_suffix q t.1 t.2)
        (turnHistory ts)
      have heq : (q ++ [t.1, t.2]) ++ turnHistory ts
          = q ++ turnHistory (t :: ts) := by
        simp [turnHistory, List.append_assoc]
      rw [heq] at hstep
      exact hstep

/-- C5: over any sequence of completed turns, the memory queue update appends
exactly one (user, model) pair per turn; the queue length is always at most 6
and never odd, and the retained entries are a suffix of the full turn history
(the most recent entries), so only whole oldest pairs are dropped. -/
theorem memory_queue_bounded_pairs (turns : List (MemEntry × MemEntry)) :
    (runQueue turns).length = min (2 * turns.length) 6 ∧
    (runQueue turns).length ≤ 6 ∧
    (runQueue turns).length % 2 = 0 ∧
    runQueue turns <:+ turnHistory turns ∧
    (∀ t : MemEntry × MemEntry,
      runQueue (turns ++ [t]) = appendTrim (runQueue turns) t.1 t.2) := by
  obtain ⟨h1, h2, h3⟩ := runQueue_from_spec turns [] (by simp) (by simp)
  have hA : (runQueue turns).length = min (2 * turns.length) 6 := by
    have hx := h1
    simp only [List.length_nil, Nat.zero_add] at hx
    exact hx
  have hB : (runQueue turns).length % 2 = 0 := h2
  have hC : runQueue turns <:+ turnHistory turns := by simpa using h3
  refine ⟨hA, by rw [hA]; omega, hB, hC, ?_⟩
  intro t
  simp [runQueue, List.foldl_append]

/-- C6: the deterministic fallback responder is pure in the state for its
reply; risk keywords are matched (case-insensitively, by substring) before all
other groups and yield the fixed crisis reply (mentioning 988) while flagging
risk; otherwise the first match among greeting, sadness, anxiety yields that
group's canned reply; an unmatched message yields the default reply; and "hi"
on the fresh session yields the greeting reply with status left NO_RISK. -/
theorem fallback_responder_spec (st st' : SessionState) (msg : String) :
    (fallbackProcess st msg).1 = (fallbackProcess st' msg).1 ∧
    (groupMatch riskKeywords msg = true →
      fallbackProcess st msg = (crisisReply, fallbackFlagState msg st) ∧
      strIn "988" crisisReply = true ∧
      (fallbackFlagState msg st).at_risk = some (.str "True")) ∧
    (groupMatch riskKeywords msg = false →
      groupMatch greetingKeywords msg = true →
      fallbackProcess st msg = (greetingReply, st)) ∧
    (groupMatch riskKeywords msg = false →
      groupMatch greetingKeywords msg = false →
      groupMatch sadKeywords msg = true →
      fallbackProcess st msg = (sadReply, st)) ∧
    (groupMatch riskKeywords msg = false →
      groupMatch greetingKeywords msg = false →
      groupMatch sadKeywords msg = false →
      groupMatch anxiousKeywords msg = true →
      fallbackProcess st msg = (anxiousReply, st)) ∧
    (groupMatch riskKeywords msg = false →
      groupMatch greetingKeywords msg = false →
      groupMatch sadKeywords msg = false →
      groupMatch anxiousKeywords msg = false →
      fallbackProcess st msg = (defaultReply, st)) ∧
    (fallbackProcess runnerInitialState "hi"
        = (greetingReply, runnerInitialState) ∧
      runnerInitialState.risk_profile.map RiskProfile.status
        = some (some "NO_RISK")) := by
  refine ⟨?_, ?_, ?_, ?_, ?_, ?_, by decide, rfl⟩
  · by_cases h1 : groupMatch riskKeywords msg <;>
      by_cases h2 : groupMatch greetingKeywords msg <;>
      by_cases h3 : groupMatch sadKeywords msg <;>
      by_cases h4 : groupMatch anxiousKeywords msg <;>
      simp [fallbackProcess, h1, h2, h3, h4]
  · intro h1
    exact ⟨by simp [fallbackProcess, h1], by decide, rfl⟩
  · intro h1 h2
    simp [fallbackProcess, h1, h2]
  · intro h1 h2 h3
    simp [fallbackProcess, h1, h2, h3]
  · intro h1 h2 h3 h4
    simp [fallbackProcess, h1, h2, h3, h4]
  · intro h1 h2 h3 h4
    simp [fallbackProcess, h1, h2, h3, h4]

/-- Witness for C6 at concrete messages, one per branch. -/
theorem fallback_responder_spec_witness :
    fallbackProcess runnerInitialState "I want to kill myself"
      = (crisisReply,
         fallbackFlagState "I want to kill myself" runnerInitialState) ∧
    fallbackProcess runnerInitialState "hi"
      = (greetingReply, runnerInitialState) ∧
    fallbackProcess runnerInitialState "I feel sad"
      = (sadReply, runnerInitialState) ∧
    fallbackProcess runnerInitialState "so anxious"
      = (anxiousReply, runnerInitialState) ∧
    fallbackProcess runnerInitialState "qqq"
      = (defaultReply, runnerInitialState) :=
  ⟨((fallback_responder_spec runnerInitialState runnerInitialState
      "I want to kill myself").2.1 (by decide)).1,
   (fallback_responder_spec runnerInitialState runnerInitialState
      "hi").2.2.1 (by decide) (by decide),
   (fallback_responder_spec runnerInitialState runnerInitialState
      "I feel sad").2.2.2.1 (by decide) (by decide) (by decide),
   (fallback_responder_spec runnerInitialState runnerInitialState
      "so anxious").2.2.2.2.1 (by decide) (by decide) (by decide) (by decide),
   (fallback_responder_spec runnerInitialState runnerInitialState
      "qqq").2.2.2.2.2.1 (by decide) (by decide) (by decide) (by decide)⟩

/-- C7: when the primary (agent-based) processing raises, the orchestrator
returns the deterministic fallback strategy's reply on the state at failure,
and processing never surfaces an error for any outcome of the primary. -/
theorem primary_failure_falls_back (e : String) (stf st : SessionState)
    (msg : String) :
    processWithAgent true (.failure e stf) st msg
      = .ok (fallbackProcess stf msg) ∧
    (∀ (adk : Bool) (p : PrimaryOutcome),
      ∃ v, processWithAgent adk p st msg = .ok v) ∧
    processWithAgent true (.failure e runnerInitialState) runnerInitialState
        "I want to kill myself"
      = .ok (crisisReply,
          fallbackFlagState "I want to kill myself" runnerInitialState) := by
  refine ⟨rfl, ?_, ?_⟩
  · intro adk p
    cases adk <;> cases p <;> exact ⟨_, rfl⟩
  · exact congrArg Except.ok (by decide)

/-- C8: once the session state is loaded and a reply is computed, the returned
value of run_conversation is exactly that reply, independent of the outcomes
of every subsequent persistence step (state store, message store, session
update), and it is never an error. -/
theorem persistence_failures_do_not_change_reply (st : SessionState)
    (adk : Bool) (primary : PrimaryOutcome) (msg : String)
    (s1 m1 s2 m2 : Except String Unit)
    (u1 u2 : Except String (Option Unit)) :
    run_conversation (some st) adk primary s1 m1 u1 msg
      = run_conversation (some st) adk primary s2 m2 u2 msg ∧
    ∃ r st', processWithAgent adk primary st msg = .ok (r, st') ∧
      run_conversation (some st) adk primary s1 m1 u1 msg = r := by
  have htot : ∃ v, processWithAgent adk primary st msg = .ok v := by
    cases adk <;> cases primary <;> exact ⟨_, rfl⟩
  obtain ⟨⟨r, st'⟩, hv⟩ := htot
  refine ⟨?_, r, st', hv, ?_⟩ <;> simp [run_conversation, hv]

/-- Risk-alert row present before the delete in the failing input. -/
def sampleAlert : AlertRec :=
  { sessionId := "s1"
    userId := "u1"
    triggering_statement := "I want to kill myself"
    risk_categories := ["Suicidality"]
    verdict := "UNCONFIRMED" }

/-- Failing input for the delete cascade: one session with one message, one
state row, one transformed message and one risk alert. -/
def db0 : Db :=
  { chat_sessions := [⟨"s1", "u1", "app", runnerInitialState⟩]
    chat_messages := [⟨"s1", "u1", "user", "I want to kill myself"⟩]
    session_states := [⟨"s1", "u1", runnerInitialState⟩]
    risk_alerts := [sampleAlert]
    transformed_messages := [⟨"s1", "u1"⟩] }

/-- C9: the custom-runner delete cascade removes the session record, its state
and its messages — subsequent get_session and session_exists report the
session absent — but it leaves the session's risk-alert row in place, unlike
the manual fallback deletion, which removes it. -/
theorem delete_session_leaves_risk_alerts :
    get_session "app" "u1" "s1" (delete_session "app" "u1" "s1" db0)
      = none ∧
    session_exists "app" "u1" "s1" (delete_session "app" "u1" "s1" db0)
      = false ∧
    (delete_session "app" "u1" "s1" db0).chat_messages = [] ∧
    (delete_session "app" "u1" "s1" db0).session_states = [] ∧
    (delete_session "app" "u1" "s1" db0).risk_alerts = [sampleAlert] ∧
    sampleAlert.sessionId = "s1" ∧
    (delete_manual_session "u1" "s1" db0).risk_alerts = [] := by
  decide

/-- C10: the at_risk dict lookup of the root agent's turn processing fails
exactly when the state's at_risk value is not the string "True" or "False"
(missing key, other string, or an actual boolean); when it fails the whole
turn raises KeyError before any reply, and under the precondition the lookup
always yields a boolean. -/
theorem at_risk_lookup_totality (userMsg : String)
    (flags : List (String × String)) (pT cT : String) (st : SessionState) :
    (stringToBoolMap st.at_risk = none →
      rootAgentTurn userMsg flags pT cT st = .error "KeyError") ∧
    (stringToBoolMap st.at_risk = none ↔
      ¬(st.at_risk = some (.str "True") ∨ st.at_risk = some (.str "False"))) ∧
    ((st.at_risk = some (.str "True") ∨ st.at_risk = some (.str "False")) →
      ∃ b, stringToBoolMap st.at_risk = some b) := by
  refine ⟨?_, ?_, ?_⟩
  · intro h
    simp [rootAgentTurn, routeDecision, h]
  · constructor
    · intro h hcon
      rcases hcon with h1 | h1 <;> rw [h1] at h <;> simp [stringToBoolMap] at h
    · intro h
      rcases hv : st.at_risk with _ | v
      · rfl
      · rcases v with s | b
        · by_cases h1 : s = "True"
          · exact absurd (Or.inl (by rw [hv, h1])) h
          · by_cases h2 : s = "False"
            · exact absurd (Or.inr (by rw [hv, h2])) h
            · simp [stringToBoolMap, h1, h2]
        · rfl
  · intro h
    rcases h with h1 | h1 <;> rw [h1] <;> exact ⟨_, rfl⟩

/-- Session state holding an actual boolean under at_risk, as external
tampering or a type slip would produce. -/
def atRiskBoolState : SessionState :=
  { runnerInitialState with at_risk := some (.bool true) }

/-- Witness for C10: with an actual boolean stored under at_risk the turn
raises KeyError; the fresh state's flag maps to a boolean. -/
theorem at_risk_lookup_totality_witness :
    rootAgentTurn "hi" [] "p" "c" atRiskBoolState = .error "KeyError" ∧
    (∃ b, stringToBoolMap runnerInitialState.at_risk = some b) :=
  ⟨(at_risk_lookup_totality "hi" [] "p" "c" atRiskBoolState).1 rfl,
   (at_risk_lookup_totality "hi" [] "p" "c" runnerInitialState).2.2
     (Or.inr rfl)⟩

theorem fallbackProcess_snd (st : SessionState) (msg : String) :
    (fallbackProcess st msg).2 = fallbackFlagState msg st ∨
    (fallbackProcess st msg).2 = st := by
  unfold fallbackProcess
  split
  · exact Or.inl rfl
  split
  · exact Or.inr rfl
  split
  · exact Or.inr rfl
  split
  · exact Or.inr rfl
  · exact Or.inr rfl

theorem updateAssessmentHistory_preserves (userRole userText : String)
    (st st' : SessionState)
    (h : updateAssessmentHistory userRole userText st = some st') :
    st'.at_risk = st.at_risk ∧
    st'.recent_memory_queue = st.recent_memory_queue ∧
    ∃ rp rp', st.risk_profile = some rp ∧ st'.risk_profile = some rp' ∧
      rp'.verdict = rp.verdict ∧ rp'.status = rp.status := by
  unfold updateAssessmentHistory at h
  split at h
  · rename_i rp resp hrp hag
    split at h
    · rename_i hist hah
      simp only [Option.some.injEq] at h
      subst h
      exact ⟨rfl, rfl, rp, _, hrp, rfl, rfl, rfl⟩
    · simp at h
  · simp at h

theorem contextStep_preserves (u r : String) (st st' : SessionState)
    (h : contextStep u r st = some st') :
    st'.at_risk = st.at_risk ∧
    st'.recent_memory_queue = st.recent_memory_queue ∧
    ∃ rp rp', st.risk_profile = some rp ∧ st'.risk_profile = some rp' ∧
      rp'.verdict = rp.verdict ∧ rp'.status = rp.status := by
  have hp := updateAssessmentHistory_preserves "user" u
    { st with agent_response := some r } st' h
  exact hp

theorem update_queue_preserves (role text : String) (st st' : SessionState)
    (h : update_recent_memory_queue role text st = some st') :
    st'.at_risk = st.at_risk ∧ st'.risk_profile = st.risk_profile := by
  unfold update_recent_memory_queue at h
  rcases hp : st.persona_agent_response with _ | resp
  · rw [hp] at h; simp at h
  · rw [hp] at h
    simp only [Option.some.injEq] at h
    subst h
    exact ⟨rfl, rfl⟩

/-- C2 (amended): in every reachable session state the risk profile is
present, the at_risk flag is the string "True" or "False" and is "True"
exactly when risk_profile.verdict is neither NO_RISK nor CLEARED; the status
field does not mirror verdict — it is never rewritten, staying NO_RISK from
creation or absent after a fallback flag. -/
theorem reachable_at_risk_verdict_consistent (st : SessionState)
    (h : Reachable st) : atRiskConsistent st := by
  induction h with
  | runner =>
    exact ⟨initialRiskProfile, rfl, Or.inr rfl, by decide, Or.inl rfl⟩
  | service email =>
    refine ⟨initialRiskProfile, rfl, Or.inr rfl, ?_, Or.inl rfl⟩
    show some (PyVal.str "False") = some (.str "True") ↔ _
    decide
  | step op hop hr ih =>
    obtain ⟨rp, hsome, hval, hiff, hstat⟩ := ih
    cases op with
    | flag s c =>
      simp only [applyOp, Option.some.injEq] at hop
      subst hop
      refine ⟨?_, ?_, Or.inl rfl, ?_, ?_⟩
      · exact { rp with
          triggering_statement := s
          risk_categories := rp.risk_categories ++ [c]
          verdict := "UNCONFIRMED" }
      · simp [create_risk_profile, hsome]
      · exact iff_of_true rfl
          ⟨(by decide : ("UNCONFIRMED" : String) ≠ "NO_RISK"),
           (by decide : ("UNCONFIRMED" : String) ≠ "CLEARED")⟩
      · exact hstat
    | fallback m =>
      simp only [applyOp, Option.some.injEq] at hop
      subst hop
      rcases fallbackProcess_snd _ m with hf | hf
      · rw [hf]
        exact ⟨_, rfl, Or.inl rfl,
          iff_of_true rfl
            ⟨(by decide : ("UNCONFIRMED" : String) ≠ "NO_RISK"),
             (by decide : ("UNCONFIRMED" : String) ≠ "CLEARED")⟩,
          Or.inr rfl⟩
      · rw [hf]
        exact ⟨rp, hsome, hval, hiff, hstat⟩
    | personaReply r =>
      simp only [applyOp, Option.some.injEq] at hop
      subst hop
      exact ⟨rp, hsome, hval, hiff, hstat⟩
    | contextReply u r =>
      simp only [applyOp] at hop
      obtain ⟨ha, _, rp0, rp', h0, h1, hv, hs⟩ :=
        contextStep_preserves u r _ _ hop
      rw [hsome] at h0
      injection h0 with h0
      subst h0
      refine ⟨rp', h1, ?_, ?_, ?_⟩
      · rw [ha]; exact hval
      · rw [ha, hv]; exact hiff
      · rw [hs]; exact hstat
    | queueAppend role text =>
      simp only [applyOp] at hop
      obtain ⟨ha, hrp⟩ := update_queue_preserves role text _ _ hop
      refine ⟨rp, ?_, ?_, ?_, hstat⟩
      · rw [hrp]; exact hsome
      · rw [ha]; exact hval
      · rw [ha]; exact hiff

/-- Witness for C2 at a concrete reachable state: the runner initial state. -/
theorem reachable_at_risk_verdict_consistent_witness :
    atRiskConsistent runnerInitialState :=
  reachable_at_risk_verdict_consistent runnerInitialState Reachable.runner

/-- C2 counterexample: already in the reachable initial state, verdict is
CLEARED while status is NO_RISK, so verdict does not equal status. -/
theorem verdict_differs_from_status_initially :
    Reachable runnerInitialState ∧
    runnerInitialState.risk_profile.map RiskProfile.verdict = some "CLEARED" ∧
    runnerInitialState.risk_profile.map RiskProfile.status
      = some (some "NO_RISK") ∧
    ("CLEARED" : String) ≠ "NO_RISK" :=
  ⟨Reachable.runner, rfl, rfl, by decide⟩

/-- A flagged session state: the operational risk flag is "True" and the
verdict is a live (non-NO_RISK, non-CLEARED) value. -/
def flaggedHot (st : SessionState) : Prop :=
  st.at_risk = some (.str "True") ∧
  ∀ rp, st.risk_profile = some rp →
    rp.verdict ≠ "NO_RISK" ∧ rp.verdict ≠ "CLEARED"

theorem applyOp_preserves_flaggedHot (op : TurnOp) (st st' : SessionState)
    (h : applyOp op st = some st') (hf : flaggedHot st) : flaggedHot st' := by
  obtain ⟨ha, hv⟩ := hf
  cases op with
  | flag s c =>
    simp only [applyOp, Option.some.injEq] at h
    subst h
    refine ⟨rfl, ?_⟩
    intro rp hrp
    injection hrp with hrp
    subst hrp
    exact ⟨(by decide : ("UNCONFIRMED" : String) ≠ "NO_RISK"),
           (by decide : ("UNCONFIRMED" : String) ≠ "CLEARED")⟩
  | fallback m =>
    simp only [applyOp, Option.some.injEq] at h
    subst h
    rcases fallbackProcess_snd st m with hc | hc
    · rw [hc]
      refine ⟨rfl, ?_⟩
      intro rp hrp
      injection hrp with hrp
      subst hrp
      exact ⟨(by decide : ("UNCONFIRMED" : String) ≠ "NO_RISK"),
             (by decide : ("UNCONFIRMED" : String) ≠ "CLEARED")⟩
    · rw [hc]
      exact ⟨ha, hv⟩
  | personaReply r =>
    simp only [applyOp, Option.some.injEq] at h
    subst h
    exact ⟨ha, hv⟩
  | contextReply u r =>
    simp only [applyOp] at h
    obtain ⟨ha', _, rp0, rp', h0, h1, hvv, _⟩ := contextStep_preserves u r _ _ h
    refine ⟨by rw [ha']; exact ha, ?_⟩
    intro rp hrp
    rw [h1] at hrp
    injection hrp with hrp
    subst hrp
    rw [hvv]
    exact hv rp0 h0
  | queueAppend role text =>
    simp only [applyOp] at h
    obtain ⟨ha', hrp'⟩ := update_queue_preserves role text _ _ h
    refine ⟨by rw [ha']; exact ha, ?_⟩
    intro rp hrp
    rw [hrp'] at hrp
    exact hv rp hrp

/-- C3 (amended): once a session is flagged (at_risk "True" with a live
verdict), every state reachable from it by turn-loop operations is still
flagged: at_risk never returns to "False" and verdict never returns to
NO_RISK or CLEARED absent an external clear action. (The literal status field
is never written by any turn-loop operation, so it stays NO_RISK throughout;
the claim's reading on the status key fails for that reason.) -/
theorem flagged_never_cleared_in_turn_loop (st st' : SessionState)
    (hf : flaggedHot st) (h : ReachableFrom st st') : flaggedHot st' := by
  induction h with
  | refl => exact hf
  | step op hop hr ih => exact applyOp_preserves_flaggedHot op _ _ hop ih

/-- The state produced by flagging a qualifying statement on the fresh
runner state. -/
def flaggedState : SessionState :=
  create_risk_profile "I want to kill myself" "Suicidality" runnerInitialState

/-- Witness for C3 at a concrete flagged state. -/
theorem flagged_never_cleared_witness : flaggedHot flaggedState :=
  flagged_never_cleared_in_turn_loop flaggedState flaggedState
    ⟨rfl, fun rp h => by cases h; exact ⟨by decide, by decide⟩⟩
    (ReachableFrom.refl _)

/-- C3 counterexample: immediately after flagging — and after a further
persona turn — the state still has risk_profile.status = "NO_RISK", so on the
literal status field the claim "never NO_RISK again" is false (the field
simply never changes). -/
theorem status_no_risk_again_after_flag :
    flaggedState.at_risk = some (.str "True") ∧
    ReachableFrom flaggedState flaggedState ∧
    flaggedState.risk_profile.map RiskProfile.status = some (some "NO_RISK") :=
  ⟨rfl,
   ReachableFrom.step (.personaReply "ok") rfl (ReachableFrom.refl _),
   rfl⟩

theorem runFlags_at_risk (flags : List (String × String))
    (st : SessionState) (h : flags ≠ []) :
    (runFlags flags st).at_risk = some (.str "True") := by
  induction flags generalizing st with
  | nil => exact absurd rfl h
  | cons f fs ih =>
    rcases eq_or_ne fs [] with hfs | hfs
    · subst hfs
      rfl
    · exact ih (create_risk_profile f.1 f.2 st) hfs

/-- C4 (amended): the routing decision is a pure deterministic function of the
at_risk flag and of whether the risk-flagging capability reports a qualifying
statement during the turn: a turn starting at risk always routes the reply to
the escalation (context-collection) strategy regardless of message content; a
turn starting not at risk routes to the supportive (persona) strategy exactly
when nothing is flagged, and to the escalation strategy when the capability
flags the message — so the reply-producing strategy does depend on message
content through the flagging step. -/
theorem routing_pure_in_flag_and_report (flags : List (String × String))
    (st : SessionState) (b : Bool) (h : stringToBoolMap st.at_risk = some b) :
    routeDecision flags st = .ok
      (if b || !flags.isEmpty then StrategyId.contextCollectionAgent
       else StrategyId.personaAgent,
       if b then st else runFlags flags st) := by
  cases b with
  | true =>
    simp [routeDecision, h]
  | false =>
    rcases eq_or_ne flags [] with hfs | hfs
    · subst hfs
      simp [routeDecision, h, runFlags]
    · have ht := runFlags_at_risk flags st hfs
      have hmap : stringToBoolMap (runFlags flags st).at_risk = some true := by
        rw [ht]; rfl
      have hne : flags.isEmpty = false := by
        cases flags with
        | nil => exact absurd rfl hfs
        | cons f fs => rfl
      simp [routeDecision, h, hmap, hne]

/-- Witness for C4's amended routing law at a concrete not-at-risk state with
a flagged statement. -/
theorem routing_pure_in_flag_and_report_witness :
    routeDecision [("I want to kill myself", "Suicidality")]
        runnerInitialState
      = .ok (StrategyId.contextCollectionAgent,
          runFlags [("I want to kill myself", "Suicidality")]
            runnerInitialState) := by
  have h := routing_pure_in_flag_and_report
    [("I want to kill myself", "Suicidality")] runnerInitialState false rfl
  simpa using h

/-- C4 counterexample: two turns both starting from the fresh NO_RISK state
(identical risk status) route their replies to different strategies depending
on whether the message is flagged, so the reply-producing strategy is not
independent of message content. -/
theorem routing_depends_on_message_counterexample :
    stringToBoolMap runnerInitialState.at_risk = some false ∧
    (routeDecision [] runnerInitialState).toOption.map Prod.fst
      = some StrategyId.personaAgent ∧
    (routeDecision [("I want to kill myself", "Suicidality")]
        runnerInitialState).toOption.map Prod.fst
      = some StrategyId.contextCollectionAgent ∧
    StrategyId.personaAgent ≠ StrategyId.contextCollectionAgent := by
  refine ⟨rfl, rfl, rfl, by decide⟩

end ChatBackend
